import Mathlib

/-!
Verification development for the risk-scoring engine of `fraud_detection.py`.

The engine (`apply_rules`, source lines 50-120) filters the input dataset to the
claim subset (`total_loss > 0`), then runs five sequential vectorized rule
passes, each adding a fixed score and appending a rule identifier plus a
trailing comma to a per-record `flags` string; trailing commas are stripped at
the end.  It also returns per-rule trigger counts and the computed thresholds.

Numeric modelling: currency amounts and ratios are embedded as exact rationals
(the Python code uses floats; the spec-level idealization is exact arithmetic).
Pandas NaN propagation is embedded with `Option`:
  - `Series.quantile` on an empty series is NaN: `quantile` returns `none`;
  - sample standard deviation (ddof 1) of fewer than 2 values is NaN:
    `sampleVar` returns `none`; a comparison against a NaN threshold is False.
The rule-2 threshold `mean + 3 * std` involves a square root, which is
irrational; the strict comparison `loss > mean + 3 * sqrt var` is embedded
square-root-free as `mean < loss AND 9 * var < (loss - mean)^2`, which is
equivalent for `var >= 0` (lemma `lt_mean_add_three_sqrt_iff` below).
-/

set_option maxRecDepth 10000

namespace Fraud

/-- One row of `auto_insurance_data.csv`, as read by `load_data`.  The
`loss_ratio` column is stored in the file (written by `generate_mock_data.py`);
`apply_rules` reads it as-is and never recomputes it. -/
structure Record where
  customer_id : Nat
  gender : String
  age : Int
  car_model_year : Int
  annual_premium : ℚ
  total_loss : ℚ
  loss_ratio : ℚ
deriving DecidableEq

/-- Source line 53: `claims = df[df["total_loss"] > 0].copy()`. -/
def claimSubset (df : List Record) : List Record :=
  df.filter fun r => decide (0 < r.total_loss)

/-- The six age-group labels of source line 73. -/
inductive AgeBand
  | lt25
  | b25_34
  | b35_44
  | b45_54
  | b55_64
  | b65plus
deriving DecidableEq

/-- Source lines 72-74: `pd.cut(claims["age"], bins=[0,25,35,45,55,65,200],
right=False)`.  Each bin is a left-closed right-open interval; an age outside
`[0, 200)` falls in no bin (pandas NaN), embedded as `none`. -/
def ageBand (a : Int) : Option AgeBand :=
  if 0 ≤ a ∧ a < 25 then some AgeBand.lt25
  else if 25 ≤ a ∧ a < 35 then some AgeBand.b25_34
  else if 35 ≤ a ∧ a < 45 then some AgeBand.b35_44
  else if 45 ≤ a ∧ a < 55 then some AgeBand.b45_54
  else if 55 ≤ a ∧ a < 65 then some AgeBand.b55_64
  else if 65 ≤ a ∧ a < 200 then some AgeBand.b65plus
  else none

/-- An entry of the static rule table (source lines 18-39). -/
structure RuleDef where
  label : String
  score : Nat
deriving DecidableEq

/-- Source lines 18-39, the static `RULE_DEFINITIONS` table, in order. -/
def RULE_DEFINITIONS : List (String × RuleDef) :=
  [("extreme_loss_ratio", ⟨"Extreme Loss Ratio (>15x)", 3⟩),
   ("statistical_outlier", ⟨"Statistical Outlier (>mean+3*std by age group)", 2⟩),
   ("new_car_high_loss", ⟨"New Car (>=2022), High Loss (>$10k)", 2⟩),
   ("young_driver_extreme", ⟨"Young Driver (<25), Extreme Claim (>$15k)", 2⟩),
   ("premium_loss_mismatch", ⟨"Premium-Loss Mismatch (top 5% loss, bottom 25% premium)", 1⟩)]

/-- `RULE_DEFINITIONS[rule]["score"]`. -/
def ruleScore (rule : String) : Nat :=
  ((RULE_DEFINITIONS.lookup rule).map RuleDef.score).getD 0

/-- The `total_loss` values of the claim-subset records falling in band `b`
(the groupby of source line 77 collects exactly these). -/
def bandValues (claims : List Record) (b : AgeBand) : List ℚ :=
  (claims.filter fun r => decide (ageBand r.age = some b)).map Record.total_loss

/-- Arithmetic mean, as computed by pandas `agg(["mean", ...])`.  Only applied
to nonempty lists (observed groups). -/
def mean (xs : List ℚ) : ℚ :=
  xs.sum / (xs.length : ℚ)

/-- Sample variance with ddof 1, the square of pandas `agg([..., "std"])`.
Pandas yields NaN for fewer than 2 values, embedded as `none`. -/
def sampleVar (xs : List ℚ) : Option ℚ :=
  if xs.length < 2 then none
  else some ((xs.map fun x => (x - mean xs) ^ 2).sum / ((xs.length : ℚ) - 1))

/-- Source line 64: `claims["loss_ratio"] > 15`.  Reads the stored column. -/
def rule1Pred (r : Record) : Bool :=
  decide (15 < r.loss_ratio)

/-- Source lines 77-82: per-band threshold `mean + 3*std` of `total_loss`,
compared strictly.  A record whose band is NaN, or whose band has a NaN std
(fewer than 2 records), compares False against a NaN threshold.  The strict
comparison `loss > mean + 3*sqrt var` is encoded square-root-free as
`mean < loss AND 9*var < (loss - mean)^2` (see `lt_mean_add_three_sqrt_iff`). -/
def rule2Pred (claims : List Record) (r : Record) : Bool :=
  match ageBand r.age with
  | none => false
  | some b =>
    let xs := bandValues claims b
    match sampleVar xs with
    | none => false
    | some v => decide (mean xs < r.total_loss ∧ 9 * v < (r.total_loss - mean xs) ^ 2)

/-- Source line 89: `(car_model_year >= 2022) & (total_loss > 10_000)`. -/
def rule3Pred (r : Record) : Bool :=
  decide (2022 ≤ r.car_model_year ∧ 10000 < r.total_loss)

/-- Source line 96: `(age < 25) & (total_loss > 15_000)`. -/
def rule4Pred (r : Record) : Bool :=
  decide (r.age < 25 ∧ 15000 < r.total_loss)

/-- Ascending sort used to model the order statistics that pandas
`Series.quantile` reads. -/
def sortAsc (xs : List ℚ) : List ℚ :=
  List.insertionSort (· ≤ ·) xs

/-- Pandas `Series.quantile(q)` with the default linear interpolation: on the
ascending order statistics `s` of length `n`, the virtual position is
`q * (n - 1) = i + frac` and the result is `s[i] + frac * (s[i+1] - s[i])`.
An empty series yields NaN, embedded as `none`. -/
def quantile (q : ℚ) (xs : List ℚ) : Option ℚ :=
  match sortAsc xs with
  | [] => none
  | y :: ys =>
    let s := y :: ys
    let n := s.length
    let pos : ℚ := q * ((n : ℚ) - 1)
    let i : Nat := pos.floor.toNat
    let frac : ℚ := pos - (pos.floor : ℚ)
    let lo := s.getD i 0
    let hi := s.getD (min (i + 1) (n - 1)) 0
    some (lo + frac * (hi - lo))

/-- Source line 103: `claims["total_loss"].quantile(0.95)`. -/
def lossP95 (claims : List Record) : Option ℚ :=
  quantile (19 / 20) (claims.map Record.total_loss)

/-- Source line 104: `claims["annual_premium"].quantile(0.25)`. -/
def premiumP25 (claims : List Record) : Option ℚ :=
  quantile (1 / 4) (claims.map Record.annual_premium)

/-- Source line 105: `(total_loss >= loss_95) & (annual_premium <= premium_25)`.
With an empty claim subset both quantiles are NaN and the mask is all-False
(vacuously: there are no rows). -/
def rule5Pred (loss95 premium25 : Option ℚ) (r : Record) : Bool :=
  match loss95, premium25 with
  | some l, some p => decide (l ≤ r.total_loss ∧ r.annual_premium ≤ p)
  | _, _ => false

/-- Python `str.rstrip(",")` (source line 111): removes all trailing commas. -/
def rstripCommas (s : String) : String :=
  ⟨(s.toList.reverse.dropWhile fun c => c = ',').reverse⟩

/-- A row of the working frame: the record plus the tracking columns
`risk_score` and `flags` initialised on source lines 57-58.  The helper
columns `age_group` and `outlier_threshold` are added and dropped again
(source lines 74, 81, 114) and are recomputed on the fly here. -/
structure Row where
  record : Record
  risk_score : Nat
  flags : String
deriving DecidableEq

/-- One vectorized rule pass (the repeated block of source lines 63-67 etc.):
for every masked row, add the rule score and append `rule + ","` to `flags`. -/
def rulePass (name : String) (score : Nat) (pred : Record → Bool) (rows : List Row) : List Row :=
  rows.map fun row =>
    if pred row.record then
      { row with risk_score := row.risk_score + score, flags := row.flags ++ name ++ "," }
    else row

/-- The `flag_counts` dict (one `int(mask.sum())` per rule, in rule order). -/
structure FlagCounts where
  extreme_loss_ratio : Nat
  statistical_outlier : Nat
  new_car_high_loss : Nat
  young_driver_extreme : Nat
  premium_loss_mismatch : Nat
deriving DecidableEq

/-- The age bands observed in the claim subset, in category order: the groupby
of source line 77 uses `observed=True`, so only nonempty groups appear. -/
def observedBands (claims : List Record) : List AgeBand :=
  [AgeBand.lt25, AgeBand.b25_34, AgeBand.b35_44, AgeBand.b45_54,
   AgeBand.b55_64, AgeBand.b65plus].filter fun b => !(bandValues claims b).isEmpty

/-- The thresholds dict returned on source lines 116-120.  The per-band
outlier threshold `mean + 3*std` is irrational in general; each observed band
is reported by its loss mean and sample variance (`none` for a single-record
band, where pandas reports a NaN threshold), from which the threshold is
`mean + 3 * sqrt variance`. -/
structure Thresholds where
  loss_95_threshold : Option ℚ
  premium_25_threshold : Option ℚ
  age_group_stats : List (AgeBand × ℚ × Option ℚ)
deriving DecidableEq

/-- The triple returned by `apply_rules` (source line 116). -/
structure EngineResult where
  claims : List Row
  flag_counts : FlagCounts
  thresholds : Thresholds
deriving DecidableEq

/-- Source lines 50-120, `apply_rules`: filter to the claim subset, run the
five rule passes in their fixed order, strip trailing commas from `flags`, and
return the frame with the per-rule counts and computed thresholds.  The rule-5
quantiles are computed (source lines 103-104) from columns that no pass
modifies, so they are taken from the claim subset directly. -/
def apply_rules (df : List Record) : EngineResult :=
  let claims := claimSubset df
  let rows0 : List Row := claims.map fun r => { record := r, risk_score := 0, flags := "" }
  let rows1 := rulePass "extreme_loss_ratio" (ruleScore "extreme_loss_ratio") rule1Pred rows0
  let rows2 := rulePass "statistical_outlier" (ruleScore "statistical_outlier") (rule2Pred claims) rows1
  let rows3 := rulePass "new_car_high_loss" (ruleScore "new_car_high_loss") rule3Pred rows2
  let rows4 := rulePass "young_driver_extreme" (ruleScore "young_driver_extreme") rule4Pred rows3
  let loss95 := lossP95 claims
  let premium25 := premiumP25 claims
  let rows5 := rulePass "premium_loss_mismatch" (ruleScore "premium_loss_mismatch") (rule5Pred loss95 premium25) rows4
  let rowsFinal := rows5.map fun row => { row with flags := rstripCommas row.flags }
  { claims := rowsFinal
    flag_counts :=
      { extreme_loss_ratio := claims.countP rule1Pred
        statistical_outlier := claims.countP (rule2Pred claims)
        new_car_high_loss := claims.countP rule3Pred
        young_driver_extreme := claims.countP rule4Pred
        premium_loss_mismatch := claims.countP (rule5Pred loss95 premium25) }
    thresholds :=
      { loss_95_threshold := loss95
        premium_25_threshold := premium25
        age_group_stats := (observedBands claims).map fun b =>
          (b, mean (bandValues claims b), sampleVar (bandValues claims b)) } }

/-- Total preorder on rows by `risk_score`, the single sort key of
`sort_values("risk_score", ascending=False)` (source lines 158 and 175). -/
def byScore (a b : Row) : Prop :=
  a.risk_score ≤ b.risk_score

instance : DecidableRel byScore := fun a b => Nat.decLe a.risk_score b.risk_score

instance : IsTotal Row byScore := ⟨fun a b => Nat.le_total a.risk_score b.risk_score⟩

instance : IsTrans Row byScore := ⟨fun _ _ _ h1 h2 => Nat.le_trans h1 h2⟩

/-- The flagged-and-ranked view of source lines 158 and 175:
`claims[claims["risk_score"] > 0].sort_values("risk_score", ascending=False)`.
For a descending single-column sort, pandas `nargsort` (pandas 0.25 and
later) reverses the values AND the index array before taking an ascending
argsort and reverses the resulting indexer again afterwards; with a stable
underlying kernel (numpy mergesort, or introsort on the short runs where it
degenerates to insertion sort) the double reversal cancels and the descending
sort is stable with ties kept in original dataset order.  Modelled literally:
reverse the filtered rows, stable ascending insertion sort, reverse again. -/
def flaggedRanked (rows : List Row) : List Row :=
  (List.insertionSort byScore
    (rows.filter fun row => decide (0 < row.risk_score)).reverse).reverse

/-- The diagnostic line printed inside `apply_rules` (source line 54).  The
Python format string inserts thousands separators, immaterial for the counts
used here. -/
def claimsCountLine (n : Nat) : String :=
  "Customers with claims (total_loss > 0): " ++ toString n ++ "\n"

/-- The console output `apply_rules` emits while computing (source line 54). -/
def applyRulesConsole (df : List Record) : List String :=
  [claimsCountLine (claimSubset df).length]

/-- The derived loss ratio of the data model, as computed (before rounding to
4 decimal places) by `generate_mock_data.py` line 67:
`np.where(annual_premium > 0, total_loss / annual_premium, 0.0)`.  The engine
itself never computes this; it reads the stored column. -/
def derivedLossRatio (r : Record) : ℚ :=
  if 0 < r.annual_premium then r.total_loss / r.annual_premium else 0

/-- Specification-side view: the identifiers of the rules that fire for `r`,
in the fixed evaluation order. -/
def triggeredNames (claims : List Record) (r : Record) : List String :=
  (if rule1Pred r then ["extreme_loss_ratio"] else [])
  ++ (if rule2Pred claims r then ["statistical_outlier"] else [])
  ++ (if rule3Pred r then ["new_car_high_loss"] else [])
  ++ (if rule4Pred r then ["young_driver_extreme"] else [])
  ++ (if rule5Pred (lossP95 claims) (premiumP25 claims) r then ["premium_loss_mismatch"] else [])

/-- Specification-side view: the additive score of the rules that fire. -/
def recScore (claims : List Record) (r : Record) : Nat :=
  (if rule1Pred r then ruleScore "extreme_loss_ratio" else 0)
  + (if rule2Pred claims r then ruleScore "statistical_outlier" else 0)
  + (if rule3Pred r then ruleScore "new_car_high_loss" else 0)
  + (if rule4Pred r then ruleScore "young_driver_extreme" else 0)
  + (if rule5Pred (lossP95 claims) (premiumP25 claims) r then ruleScore "premium_loss_mismatch" else 0)

/-- A consistent record (stored ratio 2000/100 = 20): triggers rules 1 and 5
as sole claim record. -/
def rEx : Record := ⟨1, "Male", 40, 2015, 100, 2000, 20⟩

/-- A record whose stored `loss_ratio` (20) has drifted from its inputs
(100/100 = 1). -/
def rDrift : Record := ⟨2, "Male", 40, 2015, 100, 100, 20⟩

/-- A claim record with non-positive premium and a stored ratio above 15. -/
def rBadPrem : Record := ⟨3, "Male", 30, 2020, 0, 50, 20⟩

/-- A claim record with non-positive premium and the derivation-consistent
stored ratio 0. -/
def rSkip : Record := ⟨4, "Female", 30, 2020, 0, 50, 0⟩

/-- First of two records with identical risk profile (tie at score 4). -/
def rTie1 : Record := ⟨5, "Male", 40, 2015, 100, 2000, 20⟩

/-- Second of two records with identical risk profile (tie at score 4). -/
def rTie2 : Record := ⟨6, "Female", 41, 2015, 100, 2000, 20⟩

/-- A record with no claim (`total_loss = 0`), outside the claim subset. -/
def rZeroLoss : Record := ⟨7, "Female", 30, 2020, 100, 0, 0⟩

/-- A young driver with a high loss ratio, alone in the `<25` band. -/
def rYoungBig : Record := ⟨8, "Male", 22, 2015, 100, 1600, 16⟩

/-- Justification of the square-root-free encoding used by `rule2Pred`: for a
nonnegative variance, exceeding `mean + 3 * sqrt var` is exceeding the mean
with squared excess above `9 * var`. -/
lemma lt_mean_add_three_sqrt_iff (μ v x : ℝ) (hv : 0 ≤ v) :
    μ + 3 * Real.sqrt v < x ↔ (μ < x ∧ 9 * v < (x - μ) ^ 2) := by
  have h1 : Real.sqrt v ^ 2 = v := Real.sq_sqrt hv
  have h2 : 0 ≤ Real.sqrt v := Real.sqrt_nonneg v
  constructor
  · intro h
    constructor
    · nlinarith
    · nlinarith
  · rintro ⟨ha, hb⟩
    nlinarith

/-- Central characterization: the engine frame holds one row per claim-subset
record, in order, whose score is the additive per-record rule sum and whose
flag string is the comma-join of the triggered identifiers in rule order. -/
lemma apply_rules_claims_eq (df : List Record) :
    (apply_rules df).claims = (claimSubset df).map fun r =>
      { record := r, risk_score := recScore (claimSubset df) r,
        flags := String.intercalate "," (triggeredNames (claimSubset df) r) } := by
  simp only [apply_rules, rulePass, List.map_map]
  congr 1
  funext r
  simp only [Function.comp]
  cases h1 : rule1Pred r <;> cases h2 : rule2Pred (claimSubset df) r <;>
    cases h3 : rule3Pred r <;> cases h4 : rule4Pred r <;>
    cases h5 : rule5Pred (lossP95 (claimSubset df)) (premiumP25 (claimSubset df)) r <;>
    simp only [h1, h2, h3, h4, h5, if_true, if_false, Bool.false_eq_true, recScore,
      triggeredNames, Row.mk.injEq, eq_self_iff_true, true_and, and_true] <;>
    with_unfolding_all decide

/-- Two lists with the same multiset of values have the same ascending order
statistics. -/
lemma sortAsc_perm_eq {xs ys : List ℚ} (h : xs.Perm ys) : sortAsc xs = sortAsc ys :=
  List.eq_of_perm_of_sorted
    ((List.perm_insertionSort _ xs).trans (h.trans (List.perm_insertionSort _ ys).symm))
    (List.sorted_insertionSort _ xs) (List.sorted_insertionSort _ ys)

/-- `quantile` only reads the order statistics, hence is permutation invariant. -/
lemma quantile_perm (q : ℚ) {xs ys : List ℚ} (h : xs.Perm ys) :
    quantile q xs = quantile q ys := by
  unfold quantile
  rw [sortAsc_perm_eq h]

/-- C1: for every record in the claim subset, the risk_score produced by the
engine equals the sum of the fixed weights 3, 2, 2, 2, 1 of exactly those rule
predicates that evaluate true for that record, each evaluated independently;
scores are additive and not capped, and every score lies in 0..10. -/
theorem risk_score_is_weighted_sum (df : List Record) :
    ∀ row ∈ (apply_rules df).claims,
      row.risk_score
          = (if rule1Pred row.record then 3 else 0)
            + (if rule2Pred (claimSubset df) row.record then 2 else 0)
            + (if rule3Pred row.record then 2 else 0)
            + (if rule4Pred row.record then 2 else 0)
            + (if rule5Pred (lossP95 (claimSubset df)) (premiumP25 (claimSubset df)) row.record
                then 1 else 0)
        ∧ row.risk_score ≤ 10 := by
  intro row hrow
  rw [apply_rules_claims_eq] at hrow
  obtain ⟨r, hr, rfl⟩ := List.mem_map.1 hrow
  cases h1 : rule1Pred r <;> cases h2 : rule2Pred (claimSubset df) r <;>
    cases h3 : rule3Pred r <;> cases h4 : rule4Pred r <;>
    cases h5 : rule5Pred (lossP95 (claimSubset df)) (premiumP25 (claimSubset df)) r <;>
    simp only [recScore, h1, h2, h3, h4, h5] <;>
    with_unfolding_all decide

/-- Witness for C1 at the concrete dataset `[rEx]`. -/
theorem risk_score_is_weighted_sum_witness :
    ((⟨rEx, 4, "extreme_loss_ratio,premium_loss_mismatch"⟩ : Row) ∈ (apply_rules [rEx]).claims)
    ∧ ((⟨rEx, 4, "extreme_loss_ratio,premium_loss_mismatch"⟩ : Row).risk_score
          = (if rule1Pred rEx then 3 else 0)
            + (if rule2Pred (claimSubset [rEx]) rEx then 2 else 0)
            + (if rule3Pred rEx then 2 else 0)
            + (if rule4Pred rEx then 2 else 0)
            + (if rule5Pred (lossP95 (claimSubset [rEx])) (premiumP25 (claimSubset [rEx])) rEx
                then 1 else 0)
        ∧ (⟨rEx, 4, "extreme_loss_ratio,premium_loss_mismatch"⟩ : Row).risk_score ≤ 10) :=
  ⟨by with_unfolding_all decide,
   risk_score_is_weighted_sum [rEx] ⟨rEx, 4, "extreme_loss_ratio,premium_loss_mismatch"⟩
     (by with_unfolding_all decide)⟩

/-- C5: when the claim subset is empty the engine returns an empty frame, all
per-rule counts zero, NaN (`none`) percentile thresholds and an empty per-band
stats mapping; no error is raised (the embedding is total). -/
theorem empty_claim_subset_result (df : List Record) (h : claimSubset df = []) :
    (apply_rules df).claims = []
    ∧ (apply_rules df).flag_counts = ⟨0, 0, 0, 0, 0⟩
    ∧ (apply_rules df).thresholds.loss_95_threshold = none
    ∧ (apply_rules df).thresholds.premium_25_threshold = none
    ∧ (apply_rules df).thresholds.age_group_stats = [] := by
  simp only [apply_rules, h]
  with_unfolding_all decide

/-- Witness for C5 at the concrete dataset `[rZeroLoss]`, which has a record
but no claim record. -/
theorem empty_claim_subset_result_witness :
    claimSubset [rZeroLoss] = []
    ∧ ((apply_rules [rZeroLoss]).claims = []
        ∧ (apply_rules [rZeroLoss]).flag_counts = ⟨0, 0, 0, 0, 0⟩
        ∧ (apply_rules [rZeroLoss]).thresholds.loss_95_threshold = none
        ∧ (apply_rules [rZeroLoss]).thresholds.premium_25_threshold = none
        ∧ (apply_rules [rZeroLoss]).thresholds.age_group_stats = []) :=
  ⟨by with_unfolding_all decide,
   empty_claim_subset_result [rZeroLoss] (by with_unfolding_all decide)⟩

/-- C7: the rule-5 percentile cutoffs are computed once, globally, from the
claim subset (see `apply_rules`, which derives them from the subset before the
rule-5 pass), and are invariant under any permutation of the claim subset. -/
theorem percentile_thresholds_perm_invariant (df1 df2 : List Record)
    (h : (claimSubset df1).Perm (claimSubset df2)) :
    (apply_rules df1).thresholds.loss_95_threshold
        = (apply_rules df2).thresholds.loss_95_threshold
    ∧ (apply_rules df1).thresholds.premium_25_threshold
        = (apply_rules df2).thresholds.premium_25_threshold := by
  have hl : lossP95 (claimSubset df1) = lossP95 (claimSubset df2) :=
    quantile_perm _ (h.map Record.total_loss)
  have hp : premiumP25 (claimSubset df1) = premiumP25 (claimSubset df2) :=
    quantile_perm _ (h.map Record.annual_premium)
  constructor <;> simp only [apply_rules, hl, hp]

/-- Witness for C7 at the two-record dataset and its swap. -/
theorem percentile_thresholds_perm_invariant_witness :
    (claimSubset [rTie1, rYoungBig]).Perm (claimSubset [rYoungBig, rTie1])
    ∧ ((apply_rules [rTie1, rYoungBig]).thresholds.loss_95_threshold
          = (apply_rules [rYoungBig, rTie1]).thresholds.loss_95_threshold
        ∧ (apply_rules [rTie1, rYoungBig]).thresholds.premium_25_threshold
          = (apply_rules [rYoungBig, rTie1]).thresholds.premium_25_threshold) :=
  ⟨by with_unfolding_all exact List.Perm.swap rYoungBig rTie1 [],
   percentile_thresholds_perm_invariant [rTie1, rYoungBig] [rYoungBig, rTie1]
     (by with_unfolding_all exact List.Perm.swap rYoungBig rTie1 [])⟩

/-- Concrete trace of the double-reversal descending sort modelled by
`flaggedRanked`: two claim rows tied at score 4 keep their original dataset
order (customer ids [5, 6]) in the ranked view. -/
lemma flaggedRanked_tie_keeps_original_order :
    (apply_rules [rTie1, rTie2]).claims.map
        (fun row => (row.record.customer_id, row.risk_score)) = [(5, 4), (6, 4)]
    ∧ (flaggedRanked (apply_rules [rTie1, rTie2]).claims).map
        (fun row => row.record.customer_id) = [5, 6] := by
  with_unfolding_all decide

/-- C3 (counterexample): the engine reads the stored `loss_ratio` column; for
`rDrift` the stored value 20 drifted away from the derived value
100/100 = 1, and rule 1 fires even though the derived ratio is not above 15. -/
theorem stored_loss_ratio_drift_counterexample :
    rDrift.loss_ratio = 20 ∧ derivedLossRatio rDrift = 1 ∧ ¬ (15 : ℚ) < 1
    ∧ (apply_rules [rDrift]).claims.map Row.flags
        = ["extreme_loss_ratio,premium_loss_mismatch"] := by
  with_unfolding_all decide

/-- C3 (amended): rule 1 compares the record's stored `loss_ratio` field with
15 and never recomputes it; whenever the stored field agrees with the derived
value `total_loss / annual_premium` (0 for non-positive premium), rule 1 fires
exactly when the derived ratio exceeds 15. -/
theorem rule1_matches_derived_ratio_when_consistent (claims : List Record) (r : Record)
    (h : r.loss_ratio = derivedLossRatio r) :
    ("extreme_loss_ratio" ∈ triggeredNames claims r ↔ 15 < derivedLossRatio r) := by
  have hmem : ("extreme_loss_ratio" ∈ triggeredNames claims r ↔ rule1Pred r = true) := by
    cases h1 : rule1Pred r <;> cases h2 : rule2Pred claims r <;> cases h3 : rule3Pred r <;>
      cases h4 : rule4Pred r <;> cases h5 : rule5Pred (lossP95 claims) (premiumP25 claims) r <;>
      simp [triggeredNames, h1, h2, h3, h4, h5]
  rw [hmem, rule1Pred, h]
  exact decide_eq_true_iff

/-- Witness for C3 (amended) at the consistent record `rEx` (2000/100 = 20). -/
theorem rule1_matches_derived_ratio_witness :
    rEx.loss_ratio = derivedLossRatio rEx
    ∧ ("extreme_loss_ratio" ∈ triggeredNames (claimSubset [rEx]) rEx
        ↔ 15 < derivedLossRatio rEx) :=
  ⟨by with_unfolding_all decide,
   rule1_matches_derived_ratio_when_consistent (claimSubset [rEx]) rEx
     (by with_unfolding_all decide)⟩

/-- C4 (counterexample): on a claim record with `annual_premium = 0` the
engine neither raises a data-validation error (it returns an assessment) nor
skips rule 1: with a stored `loss_ratio` of 20 the rule-1 flag fires. -/
theorem premium_nonpositive_counterexample :
    rBadPrem.annual_premium ≤ 0
    ∧ rule1Pred rBadPrem = true
    ∧ (apply_rules [rBadPrem]).claims.map Row.flags
        = ["extreme_loss_ratio,premium_loss_mismatch"] := by
  with_unfolding_all decide

/-- C4 (amended): the engine performs no premium validation and never raises;
rule 1 depends only on the stored `loss_ratio`.  When the stored field follows
the data-model derivation (0 for non-positive premium), a claim record with
`annual_premium <= 0` never triggers rule 1, while the other four rules are
still evaluated on it normally and alone make up its score. -/
theorem premium_nonpositive_skips_rule1_when_consistent (df : List Record) (row : Row)
    (hrow : row ∈ (apply_rules df).claims)
    (hprem : row.record.annual_premium ≤ 0)
    (hratio : row.record.loss_ratio = derivedLossRatio row.record) :
    rule1Pred row.record = false
    ∧ row.risk_score
        = (if rule2Pred (claimSubset df) row.record then 2 else 0)
          + (if rule3Pred row.record then 2 else 0)
          + (if rule4Pred row.record then 2 else 0)
          + (if rule5Pred (lossP95 (claimSubset df)) (premiumP25 (claimSubset df)) row.record
              then 1 else 0) := by
  rw [apply_rules_claims_eq] at hrow
  obtain ⟨r, hr, rfl⟩ := List.mem_map.1 hrow
  simp only at hprem hratio ⊢
  have h1 : rule1Pred r = false := by
    rw [rule1Pred, hratio, derivedLossRatio, if_neg (not_lt.2 hprem)]
    with_unfolding_all decide
  refine ⟨h1, ?_⟩
  cases h2 : rule2Pred (claimSubset df) r <;> cases h3 : rule3Pred r <;>
    cases h4 : rule4Pred r <;>
    cases h5 : rule5Pred (lossP95 (claimSubset df)) (premiumP25 (claimSubset df)) r <;>
    simp only [recScore, h1, h2, h3, h4, h5] <;>
    with_unfolding_all decide

/-- Witness for C4 (amended) at `rSkip` (premium 0, stored ratio 0): rule 1
does not fire and the score 1 comes from rule 5 alone. -/
theorem premium_nonpositive_skips_rule1_witness :
    ((⟨rSkip, 1, "premium_loss_mismatch"⟩ : Row) ∈ (apply_rules [rSkip]).claims)
    ∧ rSkip.annual_premium ≤ 0
    ∧ rSkip.loss_ratio = derivedLossRatio rSkip
    ∧ (rule1Pred (⟨rSkip, 1, "premium_loss_mismatch"⟩ : Row).record = false
        ∧ (⟨rSkip, 1, "premium_loss_mismatch"⟩ : Row).risk_score
            = (if rule2Pred (claimSubset [rSkip])
                    (⟨rSkip, 1, "premium_loss_mismatch"⟩ : Row).record then 2 else 0)
              + (if rule3Pred (⟨rSkip, 1, "premium_loss_mismatch"⟩ : Row).record then 2 else 0)
              + (if rule4Pred (⟨rSkip, 1, "premium_loss_mismatch"⟩ : Row).record then 2 else 0)
              + (if rule5Pred (lossP95 (claimSubset [rSkip])) (premiumP25 (claimSubset [rSkip]))
                    (⟨rSkip, 1, "premium_loss_mismatch"⟩ : Row).record then 1 else 0)) :=
  ⟨by with_unfolding_all decide,
   by with_unfolding_all decide,
   by with_unfolding_all decide,
   premium_nonpositive_skips_rule1_when_consistent [rSkip] ⟨rSkip, 1, "premium_loss_mismatch"⟩
     (by with_unfolding_all decide) (by with_unfolding_all decide)
     (by with_unfolding_all decide)⟩

/-- C6: for an engine row whose age band holds fewer than 2 claim records, the
statistical-outlier rule never fires, whatever the loss magnitude: the band's
sample std is NaN, the threshold is NaN, and the comparison is False; the
identifier never enters the triggered list.  No error is raised (the
embedding is total). -/
theorem degenerate_band_no_outlier (df : List Record) (row : Row) (b : AgeBand)
    (hrow : row ∈ (apply_rules df).claims)
    (hb : ageBand row.record.age = some b)
    (hn : (bandValues (claimSubset df) b).length < 2) :
    rule2Pred (claimSubset df) row.record = false
    ∧ "statistical_outlier" ∉ triggeredNames (claimSubset df) row.record := by
  have hv : sampleVar (bandValues (claimSubset df) b) = none := by
    rw [sampleVar, if_pos hn]
  have h2 : rule2Pred (claimSubset df) row.record = false := by
    simp [rule2Pred, hb, hv]
  refine ⟨h2, ?_⟩
  cases h1 : rule1Pred row.record <;> cases h3 : rule3Pred row.record <;>
    cases h4 : rule4Pred row.record <;>
    cases h5 : rule5Pred (lossP95 (claimSubset df)) (premiumP25 (claimSubset df)) row.record <;>
    simp [triggeredNames, h1, h2, h3, h4, h5]

/-- Witness for C6: `rYoungBig` is alone in the `<25` band and does not
trigger the outlier rule. -/
theorem degenerate_band_no_outlier_witness :
    ((⟨rYoungBig, 4, "extreme_loss_ratio,premium_loss_mismatch"⟩ : Row)
        ∈ (apply_rules [rYoungBig]).claims)
    ∧ ageBand (⟨rYoungBig, 4,
        "extreme_loss_ratio,premium_loss_mismatch"⟩ : Row).record.age
        = some AgeBand.lt25
    ∧ (bandValues (claimSubset [rYoungBig]) AgeBand.lt25).length < 2
    ∧ (rule2Pred (claimSubset [rYoungBig]) (⟨rYoungBig, 4,
          "extreme_loss_ratio,premium_loss_mismatch"⟩ : Row).record = false
        ∧ "statistical_outlier" ∉ triggeredNames (claimSubset [rYoungBig]) (⟨rYoungBig, 4,
          "extreme_loss_ratio,premium_loss_mismatch"⟩ : Row).record) :=
  ⟨by with_unfolding_all decide,
   by with_unfolding_all decide,
   by with_unfolding_all decide,
   degenerate_band_no_outlier [rYoungBig]
     ⟨rYoungBig, 4, "extreme_loss_ratio,premium_loss_mismatch"⟩
     AgeBand.lt25 (by with_unfolding_all decide) (by with_unfolding_all decide)
     (by with_unfolding_all decide)⟩

/-- C8 (counterexample): the top band is NOT unconstrained above: `pd.cut`
uses the finite bins `[0, 25, 35, 45, 55, 65, 200]`, so an age of 200 (which
is at least 65) falls in no band at all rather than in `65+`. -/
theorem age_band_bounded_counterexample :
    (65 : Int) ≤ 200 ∧ ageBand 200 = none ∧ ageBand (-1) = none := by
  decide

/-- C8 (amended): ages are bucketed right-open into the six bands, with age 25
in `25-34` and age 65 in `65+`; but the outer bins are bounded: only ages in
`[0, 200)` receive a band, and ages below 0 or at or above 200 receive none. -/
theorem age_band_right_open_characterization (a : Int) :
    (ageBand a = some AgeBand.lt25 ↔ 0 ≤ a ∧ a < 25)
    ∧ (ageBand a = some AgeBand.b25_34 ↔ 25 ≤ a ∧ a < 35)
    ∧ (ageBand a = some AgeBand.b35_44 ↔ 35 ≤ a ∧ a < 45)
    ∧ (ageBand a = some AgeBand.b45_54 ↔ 45 ≤ a ∧ a < 55)
    ∧ (ageBand a = some AgeBand.b55_64 ↔ 55 ≤ a ∧ a < 65)
    ∧ (ageBand a = some AgeBand.b65plus ↔ 65 ≤ a ∧ a < 200)
    ∧ (ageBand a = none ↔ a < 0 ∨ 200 ≤ a) := by
  unfold ageBand
  split_ifs with hc1 hc2 hc3 hc4 hc5 hc6 <;>
    refine ⟨?_, ?_, ?_, ?_, ?_, ?_, ?_⟩ <;> simp <;> omega

/-- C9 (counterexample): the engine is not free of I/O: `apply_rules` prints a
diagnostic line (source line 54) on every run, even for an empty dataset. -/
theorem engine_console_output_counterexample :
    applyRulesConsole [] = [claimsCountLine 0] ∧ applyRulesConsole [] ≠ [] := by
  with_unfolding_all decide

/-- C9 (amended): the engine result is a pure function of the derived claim
subset of its input (the input collection itself is never mutated in the
embedding, matching the `.copy()` on source line 53, and no global mutable
state exists); however it does emit console output while running. -/
theorem engine_pure_function_of_claim_subset (df : List Record) :
    apply_rules df = apply_rules (claimSubset df) := by
  have h : claimSubset (claimSubset df) = claimSubset df := by
    simp [claimSubset, List.filter_filter]
  simp only [apply_rules, h]

/-- C10: the unranked assessment collection has exactly one row per
claim-subset record, in the original relative order; each row's flags string
is the comma-join (no trailing separator) of the triggered rule identifiers in
fixed evaluation order, and it is non-empty exactly when the risk_score is
positive. -/
theorem assessments_align_with_claim_subset (df : List Record) :
    (apply_rules df).claims.map Row.record = claimSubset df
    ∧ ∀ row ∈ (apply_rules df).claims,
        row.flags = String.intercalate "," (triggeredNames (claimSubset df) row.record)
        ∧ (row.flags ≠ "" ↔ 0 < row.risk_score) := by
  refine ⟨?_, ?_⟩
  · rw [apply_rules_claims_eq, List.map_map]
    exact List.map_id (claimSubset df)
  · intro row hrow
    rw [apply_rules_claims_eq] at hrow
    obtain ⟨r, hr, rfl⟩ := List.mem_map.1 hrow
    refine ⟨rfl, ?_⟩
    cases h1 : rule1Pred r <;> cases h2 : rule2Pred (claimSubset df) r <;>
      cases h3 : rule3Pred r <;> cases h4 : rule4Pred r <;>
      cases h5 : rule5Pred (lossP95 (claimSubset df)) (premiumP25 (claimSubset df)) r <;>
      simp only [recScore, triggeredNames, h1, h2, h3, h4, h5] <;>
      with_unfolding_all decide

/-- Witness for C10 at the dataset `[rZeroLoss, rEx]`, whose claim subset is
`[rEx]`. -/
theorem assessments_align_with_claim_subset_witness :
    ((⟨rEx, 4, "extreme_loss_ratio,premium_loss_mismatch"⟩ : Row)
        ∈ (apply_rules [rZeroLoss, rEx]).claims)
    ∧ ((⟨rEx, 4, "extreme_loss_ratio,premium_loss_mismatch"⟩ : Row).flags
          = String.intercalate ","
              (triggeredNames (claimSubset [rZeroLoss, rEx])
                (⟨rEx, 4, "extreme_loss_ratio,premium_loss_mismatch"⟩ : Row).record)
        ∧ ((⟨rEx, 4, "extreme_loss_ratio,premium_loss_mismatch"⟩ : Row).flags ≠ ""
            ↔ 0 < (⟨rEx, 4, "extreme_loss_ratio,premium_loss_mismatch"⟩ : Row).risk_score)) :=
  ⟨by with_unfolding_all decide,
   (assessments_align_with_claim_subset [rZeroLoss, rEx]).2
     ⟨rEx, 4, "extreme_loss_ratio,premium_loss_mismatch"⟩ (by with_unfolding_all decide)⟩

end Fraud
